import Mathlib

/-!
Verification development for SpotBot, a Slack bot that logs photographic
"spots" of coworkers, shows leaderboards and galleries, and lets workspace
admins moderate (bind the active channel, veto a spot, reset a channel).

The repository holds two variants of the same bot:
* a multi-tenant HTTP/OAuth bot (`src/app.js`, Spot schema with `teamId` and
  `messageTs`, Installation schema with `activeChannelId`), modelled in
  namespace `MT` below;
* a single-tenant socket-mode bot (hard-coded channel constant), modelled in
  namespace `ST` below.

Handlers are embedded as pure functions from (stores, inputs) to
(stores, reply).  The Mongo collection of Spots is a `List`; `findOneAndDelete`
removes the first match, `deleteMany` removes every match and reports the
count, aggregation is group-by + count + descending sort + limit.  The remote
admin lookup (`client.users.info`) is passed in as `Except Unit Bool`
(`.error` = the remote call threw).
-/

namespace SpotBot

/-- JS whitespace skipped by `parseInt` before parsing. -/
def isJsSpace (c : Char) : Bool :=
  c = ' ' || c = '\t' || c = '\n' || c = '\r' || c = '\x0b' || c = '\x0c'

def isDecDigit (c : Char) : Bool := '0' ≤ c && c ≤ '9'

def isHexDigit (c : Char) : Bool :=
  isDecDigit c || ('a' ≤ c && c ≤ 'f') || ('A' ≤ c && c ≤ 'F')

def hexDigitVal (c : Char) : Nat :=
  if isDecDigit c then c.toNat - '0'.toNat
  else if 'a' ≤ c && c ≤ 'f' then c.toNat - 'a'.toNat + 10
  else c.toNat - 'A'.toNat + 10

def digitsVal (base : Nat) (ds : List Char) : Nat :=
  ds.foldl (fun acc c => acc * base + hexDigitVal c) 0

/-- JavaScript `parseInt(s)` (radix unspecified): skip leading whitespace,
optional sign, an optional `0x`/`0X` prefix switching to base 16, then the
longest run of digits; `none` models `NaN`. -/
def jsParseInt (s : String) : Option Int :=
  let cs := s.toList.dropWhile isJsSpace
  let (sign, cs) : Int × List Char :=
    match cs with
    | '-' :: rest => (-1, rest)
    | '+' :: rest => (1, rest)
    | _ => (1, cs)
  match cs with
  | '0' :: 'x' :: rest =>
      let ds := rest.takeWhile isHexDigit
      if ds.isEmpty then none else some (sign * (digitsVal 16 ds : Nat))
  | '0' :: 'X' :: rest =>
      let ds := rest.takeWhile isHexDigit
      if ds.isEmpty then none else some (sign * (digitsVal 16 ds : Nat))
  | _ =>
      let ds := cs.takeWhile isDecDigit
      if ds.isEmpty then none else some (sign * (digitsVal 10 ds : Nat))

/-- Character class `[A-Z0-9]` of the mention regex `/<@([A-Z0-9]+)>/`. -/
def isMentionChar (c : Char) : Bool :=
  ('A' ≤ c && c ≤ 'Z') || ('0' ≤ c && c ≤ '9')

/-- Does the mention regex match at the head of the list?  If so, return the
captured group (the user id between `<@` and `>`). -/
def mentionHere : List Char → Option String
  | '<' :: '@' :: rest =>
      let run := rest.takeWhile isMentionChar
      if run.isEmpty then none
      else match rest.dropWhile isMentionChar with
        | '>' :: _ => some (String.mk run)
        | _ => none
  | _ => none

/-- `text.match(/<@([A-Z0-9]+)>/)`: the captured group of the leftmost match,
or `none` when the regex does not match. -/
def findMention : List Char → Option String
  | [] => none
  | c :: cs =>
      match mentionHere (c :: cs) with
      | some r => some r
      | none => findMention cs

/-- Insert into a list kept in descending order of `key` (stable: equal keys
keep their relative order, new element goes after existing equals). -/
def insertDescBy (key : α → Nat) (a : α) : List α → List α
  | [] => [a]
  | b :: rest => if key b < key a then a :: b :: rest else b :: insertDescBy key a rest

/-- Sort descending by `key` (models Mongo `$sort: \x7bkey: -1\x7d`). -/
def sortDescBy (key : α → Nat) (l : List α) : List α :=
  l.foldr (insertDescBy key) []

/-- Add one occurrence of key `k` to a count table (first-appearance order). -/
def bump (k : String) : List (String × Nat) → List (String × Nat)
  | [] => [(k, 1)]
  | (k', n) :: rest => if k' = k then (k', n + 1) :: rest else (k', n) :: bump k rest

/-- Mongo `$group: \x7b_id: key, count: \x7b$sum: 1\x7d\x7d`: one row per
distinct key with its number of occurrences. -/
def groupCounts (key : α → String) (l : List α) : List (String × Nat) :=
  l.foldl (fun acc s => bump (key s) acc) []

/-- Mongo `findOneAndDelete`: remove the first element satisfying `p`,
returning the removed document (if any) and the remaining list. -/
def findOneAndDelete (p : α → Bool) : List α → Option α × List α
  | [] => (none, [])
  | s :: rest =>
      if p s then (some s, rest)
      else
        let (d, rest') := findOneAndDelete p rest
        (d, s :: rest')

/-- Mongo `deleteMany`: remove every element satisfying `p`, returning
`deletedCount` and the remaining list. -/
def deleteMany (p : α → Bool) (l : List α) : Nat × List α :=
  ((l.filter p).length, l.filter (fun s => !p s))

/-- Mongo aggregation tail `$sort \x7bcount: -1\x7d` + `$limit n` applied to a
count table.  `$limit` requires a positive argument: a non-positive `n` makes
the pipeline raise an error, modelled as `none` (the handler's catch block
turns it into a generic error reply). -/
def sortAndLimit (n : Int) (rows : List (String × Nat)) : Option (List (String × Nat)) :=
  if n ≤ 0 then none
  else some ((sortDescBy (fun r => r.2) rows).take n.toNat)

/-- One Slack Block Kit block, as built by the gallery handler. -/
inductive Block where
  | sec (text : String)
  | divider
  deriving Repr, DecidableEq

/-- A reply posted via `say`: text, optional blocks, optional `thread_ts`. -/
structure Reply where
  text : String
  blocks : List Block := []
  thread : Option String := none
  deriving Repr, DecidableEq

def Reply.plain (t : String) : Reply := { text := t }

/-- One attached file; only `url_private` is ever read. -/
structure SlackFile where
  url_private : String
  deriving Repr, DecidableEq

/-- The fields of an inbound message event that the handlers read. -/
structure Message where
  team : String
  channel : String
  user : String
  text : String
  files : List SlackFile
  ts : String
  thread_ts : Option String := none
  deriving Repr, DecidableEq

/-- The fields of a slash-command invocation that the handlers read. -/
structure Command where
  team_id : String
  channel_id : String
  user_id : String
  text : String
  deriving Repr, DecidableEq

/-- `let limit = parseInt(command.text) || 10` — `NaN` and `0` are falsy. -/
def parsedLimit (text : String) : Int :=
  match jsParseInt text with
  | none => 10
  | some v => if v = 0 then 10 else v

/-- `if (limit > 25) limit = 25` applied after `parsedLimit`. -/
def boardLimit (text : String) : Int :=
  let limit := parsedLimit text
  if limit > 25 then 25 else limit

/-- Models `Date.toLocaleDateString` rendering (presentation only). -/
def formatDate (t : Nat) : String := toString t

/-- Medal marker for a leaderboard row at `index`. -/
def medal (index : Nat) : String :=
  if index = 0 then "🥇" else if index = 1 then "🥈" else if index = 2 then "🥉" else "•"

/-- The ranked-list body shared by both leaderboards. -/
def boardLines (unit : String) (rows : List (String × Nat)) : String :=
  String.join ((rows.enum).map fun e =>
    medal e.1 ++ " <@" ++ e.2.1 ++ ">: *" ++ toString e.2.2 ++ "* " ++ unit ++ "\n")

/-- The per-spot gallery blocks: a header section, a divider, then one
section per spot. -/
def galleryBlocks (targetUser : String)
    (entries : List (Nat × String × String)) : List Block :=
  Block.sec ("📸 *Last " ++ toString entries.length ++ " times <@" ++ targetUser
      ++ "> was spotted:*")
    :: Block.divider
    :: entries.map (fun e =>
        Block.sec ("🗓 *" ++ formatDate e.1 ++ "* by <@" ++ e.2.1 ++ ">\n🔗 <"
          ++ e.2.2 ++ "|View Evidence>"))

namespace MT

/-- Multi-tenant Spot document (schema of the multi-tenant `Spot.js`):
`teamId`, `spotterId`, `targetId`, `imageUrl`, `channelId` required,
`messageTs` optional, `status` defaulting to confirmed, `timestamp`
defaulting to now. -/
structure Spot where
  teamId : String
  spotterId : String
  targetId : String
  imageUrl : String
  channelId : String
  messageTs : Option String := none
  status : String := "confirmed"
  timestamp : Nat
  deriving Repr, DecidableEq

/-- Multi-tenant Installation document (bot credentials plus the
`activeChannelId` binding; the opaque raw installation payload is elided). -/
structure Installation where
  teamId : String
  teamName : Option String := none
  botToken : String
  botId : Option String := none
  botUserId : Option String := none
  activeChannelId : Option String := none
  installedAt : Nat := 0
  deriving Repr, DecidableEq

/-- `Installation.findOne(\x7bteamId\x7d)` over the collection. -/
def findInstallation (db : List Installation) (teamId : String) : Option Installation :=
  db.find? (fun i => i.teamId = teamId)

/-- `record?.activeChannelId || null`: the active channel for a team, `none`
when there is no Installation or the field is unset (JS-falsy). -/
def getActiveChannel (db : List Installation) (teamId : String) : Option String :=
  match findInstallation db teamId with
  | none => none
  | some r =>
      match r.activeChannelId with
      | none => none
      | some c => if c = "" then none else some c

/-- The channel gate: true iff the stored active channel equals `channelId`;
false when no channel is bound yet (fail closed). -/
def isActiveChannel (db : List Installation) (teamId channelId : String) : Bool :=
  match getActiveChannel db teamId with
  | none => false
  | some active => active = channelId

def spotLoggedText (u t : String) : String :=
  "✅ *Spot Logged!* <@" ++ u ++ "> has captured <@" ++ t ++ "> in the wild."

def noPhotoText (u : String) : String :=
  "📸 No photo, no glory, <@" ++ u ++ ">!"

/-- The spot listener (`app.message(/spot|spotted|<@[A-Z0-9]+>/i)`): gate on
the active channel, extract the first mention as target, require at least one
attached file; on success persist a new confirmed Spot built verbatim from
the message. -/
def spotHandler (db : List Installation) (spots : List Spot) (now : Nat)
    (m : Message) : List Spot × Option Reply :=
  if !isActiveChannel db m.team m.channel then (spots, none)
  else
    match findMention m.text.toList, m.files with
    | some targetUser, f :: _ =>
        let newSpot : Spot :=
          { teamId := m.team
            spotterId := m.user
            targetId := targetUser
            imageUrl := f.url_private
            channelId := m.channel
            messageTs := some m.ts
            timestamp := now }
        (spots ++ [newSpot], some (Reply.plain (spotLoggedText m.user targetUser)))
    | some _, [] => (spots, some (Reply.plain (noPhotoText m.user)))
    | none, _ => (spots, none)

def notActiveText : String :=
  "⚠️ SpotBot isn\x27t active in this channel. An admin can run \x60/setchannel\x60 to activate it."

/-- `$match` stage of both leaderboards: this team, this channel, confirmed. -/
def boardFilter (teamId channelId : String) (s : Spot) : Bool :=
  s.teamId = teamId && s.channelId = channelId && s.status = "confirmed"

/-- The aggregation pipeline of both leaderboards: `$match` (team, channel,
confirmed), `$group` by `key` with count, `$sort` count descending, `$limit`. -/
def boardRows (key : Spot → String) (teamId channelId : String) (limit : Int)
    (spots : List Spot) : Option (List (String × Nat)) :=
  sortAndLimit limit (groupCounts key ((spots.filter (boardFilter teamId channelId))))

def noSpotsYetText : String := "No spots yet! Go touch grass and find someone!"

def spotboardErrText : String :=
  "⚠️ I had trouble crunching the numbers for the leaderboard."

/-- `/spotboard`: gate, parse + clamp the limit, aggregate by spotter,
render. Read-only: never writes the Spot collection. -/
def spotboardHandler (db : List Installation) (spots : List Spot)
    (c : Command) : Reply :=
  if !isActiveChannel db c.team_id c.channel_id then Reply.plain notActiveText
  else
    let limit := boardLimit c.text
    match boardRows (fun s => s.spotterId) c.team_id c.channel_id limit spots with
    | none => Reply.plain spotboardErrText
    | some rows =>
        if rows.isEmpty then Reply.plain noSpotsYetText
        else Reply.plain ("🏆 *Top " ++ toString limit ++ " Spotters*\n"
          ++ boardLines "spots" rows)

def noCaughtYetText : String := "Everyone is a ninja here. No one has been caught yet!"

def caughtboardErrText : String := "⚠️ I had trouble loading the Caughtboard."

/-- `/caughtboard`: identical to `/spotboard` but grouped by target. -/
def caughtboardHandler (db : List Installation) (spots : List Spot)
    (c : Command) : Reply :=
  if !isActiveChannel db c.team_id c.channel_id then Reply.plain notActiveText
  else
    let limit := boardLimit c.text
    match boardRows (fun s => s.targetId) c.team_id c.channel_id limit spots with
    | none => Reply.plain caughtboardErrText
    | some rows =>
        if rows.isEmpty then Reply.plain noCaughtYetText
        else Reply.plain ("🎯 *Top " ++ toString limit ++ " Most Wanted (Caught)*\n"
          ++ boardLines "times" rows)

def picsUsageText : String :=
  "👀 Who do you want to see? Usage: \x22pics <@User>\x22"

def cleanText (t : String) : String :=
  "🤷 <@" ++ t ++ "> is clean! No photos found."

/-- `$match` of the gallery query: this team, this target, this channel,
confirmed. -/
def picsFilter (teamId targetUser channelId : String) (s : Spot) : Bool :=
  s.teamId = teamId && s.targetId = targetUser && s.channelId = channelId
    && s.status = "confirmed"

/-- The gallery query: filtered Spots sorted newest first, limited to 10. -/
def picsSpots (teamId targetUser channelId : String) (spots : List Spot) : List Spot :=
  (sortDescBy (fun s => s.timestamp) (spots.filter (picsFilter teamId targetUser channelId))).take 10

/-- The pics listener (`app.message(/pics/i)`): gate, require a mention
(else usage prompt), then render up to the 10 most recent confirmed spots of
the target, or the clean message.  Read-only: never writes the Spot
collection. -/
def picsHandler (db : List Installation) (spots : List Spot)
    (m : Message) : Option Reply :=
  if !isActiveChannel db m.team m.channel then none
  else
    match findMention m.text.toList with
    | none => some (Reply.plain picsUsageText)
    | some targetUser =>
        let found := picsSpots m.team targetUser m.channel spots
        if found.isEmpty then some (Reply.plain (cleanText targetUser))
        else some
          { text := "Gallery for <@" ++ targetUser ++ ">"
            blocks := galleryBlocks targetUser
              (found.map (fun s => (s.timestamp, s.spotterId, s.imageUrl))) }

def vetoDeniedText (u : String) : String :=
  "🚫 *Access Denied.* <@" ++ u ++ ">, only Workspace Admins can veto spots."

def vetoedText (u : String) (d : Spot) : String :=
  "🔨 *Vetoed!* Admin <@" ++ u ++ "> removed this spot "
    ++ "(<@" ++ d.spotterId ++ "> spotted <@" ++ d.targetId ++ "> on "
    ++ formatDate d.timestamp ++ ")."

def noSpotFoundText : String :=
  "🤷 No spot found for this message. It may have already been vetoed."

def vetoErrText : String := "⚠️ I had trouble processing the veto."

/-- Filter of the veto deletion: the Spot whose `messageTs` equals the thread
root, in this team and channel. -/
def vetoFilter (teamId threadTs channelId : String) (s : Spot) : Bool :=
  s.teamId = teamId && s.messageTs = some threadTs && s.channelId = channelId

/-- The veto listener (`app.message(/^veto$/i)`): gate, require a genuinely
threaded reply (`thread_ts` present and ≠ own `ts`), require a passing admin
lookup, then `findOneAndDelete` the linked Spot and reply in the thread. -/
def vetoHandler (db : List Installation) (spots : List Spot)
    (admin : Except Unit Bool) (m : Message) : List Spot × Option Reply :=
  if !isActiveChannel db m.team m.channel then (spots, none)
  else
    match m.thread_ts with
    | none => (spots, none)
    | some threadTs =>
        if threadTs = m.ts then (spots, none)
        else
          match admin with
          | .error _ => (spots, some { text := vetoErrText, thread := some threadTs })
          | .ok false =>
              (spots, some { text := vetoDeniedText m.user, thread := some threadTs })
          | .ok true =>
              match findOneAndDelete (vetoFilter m.team threadTs m.channel) spots with
              | (some deletedSpot, rest) =>
                  (rest, some { text := vetoedText m.user deletedSpot
                                thread := some threadTs })
              | (none, rest) =>
                  (rest, some { text := noSpotFoundText, thread := some threadTs })

def resetDeniedText (u : String) : String :=
  "🚫 *Access Denied.* <@" ++ u ++ ">, you are not a Workspace Admin."

def kaboomText (u : String) (n : Nat) : String :=
  "*Kaboom!* Admin <@" ++ u ++ "> has wiped the board. " ++ toString n
    ++ " spots deleted."

def alreadyCleanText : String := "🧹 The board is already clean."

def resetErrText : String := "⚠️ I couldn\x27t verify your admin status with Slack."

/-- Filter of the reset deletion: every Spot of this team and channel. -/
def resetFilter (teamId channelId : String) (s : Spot) : Bool :=
  s.teamId = teamId && s.channelId = channelId

/-- `/reset`: gate, admin lookup (failure caught as a generic error reply),
then `deleteMany` on team + channel and report the deleted count. -/
def resetHandler (db : List Installation) (spots : List Spot)
    (admin : Except Unit Bool) (c : Command) : List Spot × Reply :=
  if !isActiveChannel db c.team_id c.channel_id then (spots, Reply.plain notActiveText)
  else
    match admin with
    | .error _ => (spots, Reply.plain resetErrText)
    | .ok false => (spots, Reply.plain (resetDeniedText c.user_id))
    | .ok true =>
        let result := deleteMany (resetFilter c.team_id c.channel_id) spots
        if result.1 > 0 then (result.2, Reply.plain (kaboomText c.user_id result.1))
        else (result.2, Reply.plain alreadyCleanText)

def setchannelDeniedText (u : String) : String :=
  "🚫 *Access Denied.* <@" ++ u ++ ">, only Workspace Admins can set the SpotBot channel."

def setchannelDoneText : String :=
  "✅ *SpotBot is now active in this channel!* All spotting will happen here."

def setchannelErrText : String := "⚠️ I had trouble setting the channel."

/-- `Installation.findOneAndUpdate(\x7bteamId\x7d, \x7bactiveChannelId\x7d)`
without upsert: update the first matching document, create nothing when no
document matches, and return the collection (the result is never checked by
the caller). -/
def setActiveChannel (teamId channelId : String) : List Installation → List Installation
  | [] => []
  | i :: rest =>
      if i.teamId = teamId then { i with activeChannelId := some channelId } :: rest
      else i :: setActiveChannel teamId channelId rest

/-- `/setchannel` (no channel gate): admin lookup (failure caught as a generic
error reply), then bind the invoking channel as the active channel and reply
with the activation message unconditionally. -/
def setchannelHandler (db : List Installation) (admin : Except Unit Bool)
    (c : Command) : List Installation × Reply :=
  match admin with
  | .error _ => (db, Reply.plain setchannelErrText)
  | .ok false => (db, Reply.plain (setchannelDeniedText c.user_id))
  | .ok true => (setActiveChannel c.team_id c.channel_id db, Reply.plain setchannelDoneText)

end MT

namespace ST

/-- The hard-coded channel constant of the single-tenant variant. -/
def activeChannelConst : String := "C0AD6UA1G92"

/-- Single-tenant Spot document as the spot listener constructs it (no
`teamId`; the listener stores `messageTs` to link veto replies even though
the single-tenant `Spot.js` snapshot does not declare that path). -/
structure Spot where
  spotterId : String
  targetId : String
  imageUrl : String
  channelId : String
  messageTs : Option String := none
  status : String := "confirmed"
  timestamp : Nat
  deriving Repr, DecidableEq

/-- The single-tenant spot listener (`app.message(/spot|spotted/i)`): gate on
the hard-coded channel, then the same mention/image decision table as the
multi-tenant variant. -/
def spotHandler (spots : List Spot) (now : Nat) (m : Message) :
    List Spot × Option Reply :=
  if m.channel ≠ activeChannelConst then (spots, none)
  else
    match findMention m.text.toList, m.files with
    | some targetUser, f :: _ =>
        let newSpot : Spot :=
          { spotterId := m.user
            targetId := targetUser
            imageUrl := f.url_private
            channelId := m.channel
            messageTs := some m.ts
            timestamp := now }
        (spots ++ [newSpot], some (Reply.plain (MT.spotLoggedText m.user targetUser)))
    | some _, [] => (spots, some (Reply.plain (MT.noPhotoText m.user)))
    | none, _ => (spots, none)

/-- `$match` stage of the single-tenant leaderboards: this channel, confirmed
(no channel gate precedes the aggregation in this variant). -/
def boardFilter (channelId : String) (s : Spot) : Bool :=
  s.channelId = channelId && s.status = "confirmed"

/-- The single-tenant leaderboard pipeline. -/
def boardRows (key : Spot → String) (channelId : String) (limit : Int)
    (spots : List Spot) : Option (List (String × Nat)) :=
  sortAndLimit limit (groupCounts key (spots.filter (boardFilter channelId)))

def noSpotsYetText : String := "zb No spots yet! Go touch grass and find someone!"

/-- Single-tenant `/spotboard`: no channel gate — the aggregation runs for
any invoking channel. -/
def spotboardHandler (spots : List Spot) (c : Command) : Reply :=
  let limit := boardLimit c.text
  match boardRows (fun s => s.spotterId) c.channel_id limit spots with
  | none => Reply.plain MT.spotboardErrText
  | some rows =>
      if rows.isEmpty then Reply.plain noSpotsYetText
      else Reply.plain ("🏆 *Top " ++ toString limit ++ " Spotters*\n"
        ++ boardLines "spots" rows)

def noCaughtYetText : String := "zbHs Everyone is a ninja here. No one has been caught yet!"

/-- Single-tenant `/caughtboard`: no channel gate. -/
def caughtboardHandler (spots : List Spot) (c : Command) : Reply :=
  let limit := boardLimit c.text
  match boardRows (fun s => s.targetId) c.channel_id limit spots with
  | none => Reply.plain MT.caughtboardErrText
  | some rows =>
      if rows.isEmpty then Reply.plain noCaughtYetText
      else Reply.plain ("🎯 *Top " ++ toString limit ++ " Most Wanted (Caught)*\n"
        ++ boardLines "times" rows)

/-- `$match` of the single-tenant gallery query. -/
def picsFilter (targetUser channelId : String) (s : Spot) : Bool :=
  s.targetId = targetUser && s.channelId = channelId && s.status = "confirmed"

/-- The single-tenant gallery query: newest first, limited to 10. -/
def picsSpots (targetUser channelId : String) (spots : List Spot) : List Spot :=
  (sortDescBy (fun s => s.timestamp) (spots.filter (picsFilter targetUser channelId))).take 10

/-- The single-tenant pics listener: gate on the hard-coded channel, require
a mention, then render the gallery. -/
def picsHandler (spots : List Spot) (m : Message) : Option Reply :=
  if m.channel ≠ activeChannelConst then none
  else
    match findMention m.text.toList with
    | none => some (Reply.plain MT.picsUsageText)
    | some targetUser =>
        let found := picsSpots targetUser m.channel spots
        if found.isEmpty then some (Reply.plain (MT.cleanText targetUser))
        else some
          { text := "Gallery for <@" ++ targetUser ++ ">"
            blocks := galleryBlocks targetUser
              (found.map (fun s => (s.timestamp, s.spotterId, s.imageUrl))) }

/-- Filter of the single-tenant veto deletion. -/
def vetoFilter (threadTs channelId : String) (s : Spot) : Bool :=
  s.messageTs = some threadTs && s.channelId = channelId

def vetoedText (u : String) (d : Spot) : String :=
  "🔨 *Vetoed!* Admin <@" ++ u ++ "> removed this spot "
    ++ "(<@" ++ d.spotterId ++ "> spotted <@" ++ d.targetId ++ "> on "
    ++ formatDate d.timestamp ++ ")."

/-- The single-tenant veto listener: no channel gate; require a genuinely
threaded reply and a passing admin lookup, then `findOneAndDelete` the Spot
linked to the thread root. -/
def vetoHandler (spots : List Spot) (admin : Except Unit Bool) (m : Message) :
    List Spot × Option Reply :=
  match m.thread_ts with
  | none => (spots, none)
  | some threadTs =>
      if threadTs = m.ts then (spots, none)
      else
        match admin with
        | .error _ => (spots, some { text := MT.vetoErrText, thread := some threadTs })
        | .ok false =>
            (spots, some { text := MT.vetoDeniedText m.user, thread := some threadTs })
        | .ok true =>
            match findOneAndDelete (vetoFilter threadTs m.channel) spots with
            | (some deletedSpot, rest) =>
                (rest, some { text := vetoedText m.user deletedSpot
                              thread := some threadTs })
            | (none, rest) =>
                (rest, some { text := MT.noSpotFoundText, thread := some threadTs })

def kaboomText (u : String) (n : Nat) : String :=
  "qm *Kaboom!* Admin <@" ++ u ++ "> has wiped the board. " ++ toString n
    ++ " spots deleted."

/-- Filter of the single-tenant reset deletion: every Spot of the invoking
channel. -/
def resetFilter (channelId : String) (s : Spot) : Bool :=
  s.channelId = channelId

/-- Single-tenant `/reset`: no channel gate; admin lookup (failure caught as
a generic error reply), then `deleteMany` on the invoking channel. -/
def resetHandler (spots : List Spot) (admin : Except Unit Bool) (c : Command) :
    List Spot × Reply :=
  match admin with
  | .error _ => (spots, Reply.plain MT.resetErrText)
  | .ok false => (spots, Reply.plain (MT.resetDeniedText c.user_id))
  | .ok true =>
      let result := deleteMany (resetFilter c.channel_id) spots
      if result.1 > 0 then (result.2, Reply.plain (kaboomText c.user_id result.1))
      else (result.2, Reply.plain MT.alreadyCleanText)

end ST

/-! ### Helper lemmas about the store operations -/

theorem mem_insertDescBy (key : α → Nat) (a x : α) :
    ∀ l : List α, (x ∈ insertDescBy key a l ↔ x = a ∨ x ∈ l)
  | [] => by simp [insertDescBy]
  | b :: rest => by
      by_cases h : key b < key a
      · simp [insertDescBy, h]
      · simp only [insertDescBy, h, if_false, List.mem_cons,
          mem_insertDescBy key a x rest]
        tauto

theorem length_insertDescBy (key : α → Nat) (a : α) :
    ∀ l : List α, (insertDescBy key a l).length = l.length + 1
  | [] => rfl
  | b :: rest => by
      by_cases h : key b < key a
      · simp [insertDescBy, h]
      · simp [insertDescBy, h, length_insertDescBy key a rest]

theorem pairwise_insertDescBy (key : α → Nat) (a : α) :
    ∀ l : List α, List.Pairwise (fun x y => key y ≤ key x) l →
      List.Pairwise (fun x y => key y ≤ key x) (insertDescBy key a l)
  | [], _ => by simp [insertDescBy]
  | b :: rest, hp => by
      rcases List.pairwise_cons.mp hp with ⟨hb, hrest⟩
      by_cases h : key b < key a
      · simp only [insertDescBy, if_pos h]
        refine List.pairwise_cons.mpr ⟨?_, hp⟩
        intro x hx
        rcases List.mem_cons.mp hx with rfl | hx
        · exact Nat.le_of_lt h
        · exact Nat.le_trans (hb x hx) (Nat.le_of_lt h)
      · simp only [insertDescBy, h, if_false]
        refine List.pairwise_cons.mpr ⟨?_, pairwise_insertDescBy key a rest hrest⟩
        intro x hx
        rcases (mem_insertDescBy key a x rest).mp hx with rfl | hx
        · exact Nat.le_of_not_lt h
        · exact hb x hx

theorem sortDescBy_cons (key : α → Nat) (a : α) (l : List α) :
    sortDescBy key (a :: l) = insertDescBy key a (sortDescBy key l) := rfl

theorem mem_sortDescBy (key : α → Nat) (x : α) :
    ∀ l : List α, (x ∈ sortDescBy key l ↔ x ∈ l)
  | [] => Iff.rfl
  | a :: rest => by
      rw [sortDescBy_cons, mem_insertDescBy, mem_sortDescBy key x rest,
        List.mem_cons]

theorem length_sortDescBy (key : α → Nat) :
    ∀ l : List α, (sortDescBy key l).length = l.length
  | [] => rfl
  | a :: rest => by
      rw [sortDescBy_cons, length_insertDescBy, length_sortDescBy key rest,
        List.length_cons]

theorem pairwise_sortDescBy (key : α → Nat) :
    ∀ l : List α, List.Pairwise (fun x y => key y ≤ key x) (sortDescBy key l)
  | [] => List.Pairwise.nil
  | a :: rest => by
      rw [sortDescBy_cons]
      exact pairwise_insertDescBy key a _ (pairwise_sortDescBy key rest)

theorem findOneAndDelete_of_all_false (p : α → Bool) :
    ∀ l : List α, (∀ x ∈ l, p x = false) → findOneAndDelete p l = (none, l)
  | [], _ => rfl
  | a :: rest, h => by
      have ha : p a = false := h a (List.mem_cons_self a rest)
      have hrest := findOneAndDelete_of_all_false p rest
        (fun x hx => h x (List.mem_cons_of_mem a hx))
      simp [findOneAndDelete, ha, hrest]

theorem findOneAndDelete_snd_of_none (p : α → Bool) :
    ∀ l : List α, (findOneAndDelete p l).1 = none → (findOneAndDelete p l).2 = l
  | [], _ => rfl
  | a :: rest, h => by
      by_cases ha : p a
      · simp [findOneAndDelete, ha] at h
      · have h' : (findOneAndDelete p rest).1 = none := by
          simpa [findOneAndDelete, ha] using h
        simp [findOneAndDelete, ha, findOneAndDelete_snd_of_none p rest h']

theorem findOneAndDelete_first (p : α → Bool) (d : α) (post : List α) :
    ∀ pre : List α, p d = true → (∀ x ∈ pre, p x = false) →
      findOneAndDelete p (pre ++ d :: post) = (some d, pre ++ post)
  | [], hd, _ => by simp [findOneAndDelete, hd]
  | a :: pre, hd, h => by
      have ha : p a = false := h a (List.mem_cons_self a pre)
      have hrec := findOneAndDelete_first p d post pre hd
        (fun x hx => h x (List.mem_cons_of_mem a hx))
      simp [findOneAndDelete, ha, hrec]

theorem filter_not_filter (p : α → Bool) (l : List α) :
    (l.filter (fun s => !p s)).filter p = [] := by
  induction l with
  | nil => rfl
  | cons a rest ih =>
      by_cases h : p a <;> simp [List.filter_cons, h, ih]

theorem filter_not_idem (p : α → Bool) (l : List α) :
    (l.filter (fun s => !p s)).filter (fun s => !p s) = l.filter (fun s => !p s) := by
  induction l with
  | nil => rfl
  | cons a rest ih =>
      by_cases h : p a <;> simp [List.filter_cons, h, ih]

theorem length_filter_split (p : α → Bool) (l : List α) :
    l.length = (l.filter p).length + (l.filter (fun s => !p s)).length := by
  induction l with
  | nil => rfl
  | cons a rest ih =>
      by_cases h : p a <;> simp [List.filter_cons, h, ih] <;> omega

theorem setActiveChannel_no_match (teamId channelId : String) :
    ∀ db : List MT.Installation, (∀ i ∈ db, i.teamId ≠ teamId) →
      MT.setActiveChannel teamId channelId db = db
  | [], _ => rfl
  | i :: rest, h => by
      have hi : i.teamId ≠ teamId := h i (List.mem_cons_self i rest)
      have hrec := setActiveChannel_no_match teamId channelId rest
        (fun j hj => h j (List.mem_cons_of_mem i hj))
      simp [MT.setActiveChannel, hi, hrec]

theorem sortAndLimit_of_pos (n : Int) (tbl : List (String × Nat)) (h : 0 < n) :
    sortAndLimit n tbl = some ((sortDescBy (fun r => r.2) tbl).take n.toNat) := by
  simp only [sortAndLimit, if_neg (by omega : ¬n ≤ 0)]

theorem sortAndLimit_length (n : Int) (tbl : List (String × Nat))
    (rows : List (String × Nat)) (h : 0 < n) (hrows : sortAndLimit n tbl = some rows) :
    rows.length = min n.toNat tbl.length := by
  rw [sortAndLimit_of_pos n tbl h] at hrows
  cases hrows
  rw [List.length_take, length_sortDescBy]

theorem parsedLimit_of_none (t : String) (h : jsParseInt t = none) :
    parsedLimit t = 10 := by
  simp [parsedLimit, h]

theorem parsedLimit_of_zero (t : String) (h : jsParseInt t = some 0) :
    parsedLimit t = 10 := by
  simp [parsedLimit, h]

theorem parsedLimit_of_some (t : String) (v : Int) (h : jsParseInt t = some v)
    (hv : v ≠ 0) : parsedLimit t = v := by
  simp [parsedLimit, h, hv]

theorem boardLimit_eq (t : String) :
    boardLimit t = if parsedLimit t > 25 then 25 else parsedLimit t := rfl

/-! ### Sample data used by the witnesses -/

/-- An Installation collection binding channel C1 for team T1. -/
def db1 : List MT.Installation :=
  [{ teamId := "T1", botToken := "tok", activeChannelId := some "C1" }]

/-- A message in the bound channel mentioning U2 with one attached image. -/
def msgSpot : Message :=
  { team := "T1", channel := "C1", user := "U1", text := "spotted <@U2>",
    files := [{ url_private := "https://f/1" }], ts := "100.1" }

/-- The Spot that logging `msgSpot` at time 5 creates. -/
def spot1 : MT.Spot :=
  { teamId := "T1", spotterId := "U1", targetId := "U2",
    imageUrl := "https://f/1", channelId := "C1", messageTs := some "100.1",
    timestamp := 5 }

/-- A single-tenant Spot in channel CX. -/
def stSpot1 : ST.Spot :=
  { spotterId := "U1", targetId := "U2", imageUrl := "img",
    channelId := "CX", messageTs := some "1.0", timestamp := 0 }

/-! ### The claims -/

/-- C4: `isActiveChannel(tenant, channel)` returns false when no Installation
exists for the tenant or its active-channel field is unset (JS-falsy, i.e.
null or the empty string — fail closed), and otherwise returns true iff the
stored active channel equals the given channel. -/
theorem c4_channel_gate_spec :
    (∀ (db : List MT.Installation) (teamId channelId : String),
      MT.findInstallation db teamId = none →
      MT.isActiveChannel db teamId channelId = false) ∧
    (∀ (db : List MT.Installation) (teamId channelId : String) (i : MT.Installation),
      MT.findInstallation db teamId = some i →
      (i.activeChannelId = none ∨ i.activeChannelId = some "") →
      MT.isActiveChannel db teamId channelId = false) ∧
    (∀ (db : List MT.Installation) (teamId channelId ch : String) (i : MT.Installation),
      MT.findInstallation db teamId = some i → i.activeChannelId = some ch → ch ≠ "" →
      (MT.isActiveChannel db teamId channelId = true ↔ ch = channelId)) := by
  refine ⟨?_, ?_, ?_⟩
  · intro db teamId channelId h
    simp [MT.isActiveChannel, MT.getActiveChannel, h]
  · intro db teamId channelId i h hset
    rcases hset with hset | hset <;>
      simp [MT.isActiveChannel, MT.getActiveChannel, h, hset]
  · intro db teamId channelId ch i h hch hne
    simp [MT.isActiveChannel, MT.getActiveChannel, h, hch, hne]

/-- Witness for C4: the gate fails closed on an empty Installation collection
and on an unset binding, and compares the bound channel otherwise. -/
theorem c4_witness :
    MT.isActiveChannel [] "T1" "C1" = false ∧
    MT.isActiveChannel [{ teamId := "T1", botToken := "tok" }] "T1" "C1" = false ∧
    (MT.isActiveChannel db1 "T1" "C1" = true ↔ "C1" = "C1") :=
  ⟨c4_channel_gate_spec.1 [] "T1" "C1" (by decide),
   c4_channel_gate_spec.2.1 _ "T1" "C1" { teamId := "T1", botToken := "tok" }
     (by decide) (Or.inl rfl),
   c4_channel_gate_spec.2.2 db1 "T1" "C1" "C1"
     { teamId := "T1", botToken := "tok", activeChannelId := some "C1" }
     (by decide) rfl (by decide)⟩

/-- C9: an admin `/setchannel` for a tenant with no Installation record still
replies with the activation-success message although no binding is created:
the update matches no document (no upsert) and its result is never checked. -/
theorem c9_setchannel_missing_installation
    (db : List MT.Installation) (c : Command)
    (h : ∀ i ∈ db, i.teamId ≠ c.team_id) :
    MT.setchannelHandler db (Except.ok true) c
      = (db, Reply.plain MT.setchannelDoneText) := by
  simp [MT.setchannelHandler, setActiveChannel_no_match c.team_id c.channel_id db h]

/-- Witness for C9: an empty Installation collection stays empty while the
success reply is produced. -/
theorem c9_witness :
    MT.setchannelHandler [] (Except.ok true)
        { team_id := "T1", channel_id := "C1", user_id := "U1", text := "" }
      = ([], Reply.plain MT.setchannelDoneText) :=
  c9_setchannel_missing_installation [] _ (by simp)

/-- C10: the leaderboard limit has no lower clamp: a parsed negative value is
used as-is, text "0" parses to a falsy 0 so the limit falls back to the
default 10, and only values strictly greater than 25 are clamped. -/
theorem c10_limit_no_lower_clamp :
    (∀ (t : String) (n : Int), jsParseInt t = some n → n < 0 → boardLimit t = n) ∧
    boardLimit "0" = 10 ∧
    (∀ (t : String) (v : Int), jsParseInt t = some v → v ≠ 0 → v ≤ 25 →
      boardLimit t = v) ∧
    (∀ (t : String) (v : Int), jsParseInt t = some v → 25 < v →
      boardLimit t = 25) := by
  refine ⟨?_, by decide, ?_, ?_⟩
  · intro t n h hneg
    rw [boardLimit_eq, parsedLimit_of_some t n h (by omega), if_neg (by omega)]
  · intro t v h hv hle
    rw [boardLimit_eq, parsedLimit_of_some t v h hv, if_neg (by omega)]
  · intro t v h hv
    rw [boardLimit_eq, parsedLimit_of_some t v h (by omega), if_pos (by omega)]

/-- Witness for C10: "-3" gives limit -3, "7" gives 7, "999" gives 25. -/
theorem c10_witness :
    boardLimit "-3" = -3 ∧ boardLimit "7" = 7 ∧ boardLimit "999" = 25 :=
  ⟨c10_limit_no_lower_clamp.1 "-3" (-3) (by decide) (by decide),
   c10_limit_no_lower_clamp.2.2.1 "7" 7 (by decide) (by decide) (by decide),
   c10_limit_no_lower_clamp.2.2.2 "999" 999 (by decide) (by decide)⟩

/-- C5 counterexample: the input "0" is numeric (it parses to 0) and does not
exceed 25, so the claim says the limit equals the parsed value 0 — but
`parseInt(text) || 10` treats 0 as falsy and the limit is the default 10. -/
theorem c5_counterexample :
    jsParseInt "0" = some 0 ∧ (0 : Int) ≤ 25 ∧ boardLimit "0" = 10 ∧
      (10 : Int) ≠ 0 := by
  refine ⟨by decide, by decide, by decide, by decide⟩

/-- C5 (amended): the limit is 10 when the text is absent, non-numeric, or
parses to 0 (a falsy value); it is clamped to 25 when the parsed value
exceeds 25; otherwise it equals the parsed value.  For every positive limit
the leaderboard has at most that many rows (in both variants), and the
default limit 10 yields exactly 10 rows when at least 10 groups exist. -/
theorem c5_board_limit_spec :
    (∀ t, jsParseInt t = none → boardLimit t = 10) ∧
    (∀ t, jsParseInt t = some 0 → boardLimit t = 10) ∧
    (∀ (t : String) (v : Int), jsParseInt t = some v → 25 < v → boardLimit t = 25) ∧
    (∀ (t : String) (v : Int), jsParseInt t = some v → v ≠ 0 → v ≤ 25 →
      boardLimit t = v) ∧
    (∀ (key : MT.Spot → String) (teamId channelId : String) (limit : Int)
        (spots : List MT.Spot) (rows : List (String × Nat)), 0 < limit →
      MT.boardRows key teamId channelId limit spots = some rows →
      rows.length ≤ limit.toNat) ∧
    (∀ (key : ST.Spot → String) (channelId : String) (limit : Int)
        (spots : List ST.Spot) (rows : List (String × Nat)), 0 < limit →
      ST.boardRows key channelId limit spots = some rows →
      rows.length ≤ limit.toNat) ∧
    (∀ (key : MT.Spot → String) (teamId channelId : String)
        (spots : List MT.Spot) (rows : List (String × Nat)),
      MT.boardRows key teamId channelId 10 spots = some rows →
      10 ≤ (groupCounts key (spots.filter (MT.boardFilter teamId channelId))).length →
      rows.length = 10) := by
  refine ⟨?_, ?_, ?_, ?_, ?_, ?_, ?_⟩
  · intro t h
    rw [boardLimit_eq, parsedLimit_of_none t h, if_neg (by omega)]
  · intro t h
    rw [boardLimit_eq, parsedLimit_of_zero t h, if_neg (by omega)]
  · intro t v h hv
    rw [boardLimit_eq, parsedLimit_of_some t v h (by omega), if_pos (by omega)]
  · intro t v h hv hle
    rw [boardLimit_eq, parsedLimit_of_some t v h hv, if_neg (by omega)]
  · intro key teamId channelId limit spots rows hpos hrows
    rw [sortAndLimit_length limit _ rows hpos hrows]
    exact Nat.min_le_left _ _
  · intro key channelId limit spots rows hpos hrows
    rw [sortAndLimit_length limit _ rows hpos hrows]
    exact Nat.min_le_left _ _
  · intro key teamId channelId spots rows hrows hge
    rw [sortAndLimit_length 10 _ rows (by omega) hrows]
    omega

/-- Witness for C5 (amended): "abc" and absent text give limit 10, "999"
gives 25, "5" gives 5, and a board of six distinct spotters limited to 5 has
exactly 5 rows. -/
theorem c5_witness :
    boardLimit "abc" = 10 ∧ boardLimit "" = 10 ∧ boardLimit "999" = 25 ∧
    boardLimit "5" = 5 ∧
    ∃ rows, MT.boardRows (fun s => s.spotterId) "T1" "C1" 5
        ((List.range 6).map (fun k =>
          { teamId := "T1", spotterId := toString k, targetId := "U2",
            imageUrl := "u", channelId := "C1", timestamp := k })) = some rows ∧
      rows.length ≤ 5 := by
  refine ⟨c5_board_limit_spec.1 "abc" (by decide), c5_board_limit_spec.1 "" (by decide),
    c5_board_limit_spec.2.2.1 "999" 999 (by decide) (by decide),
    c5_board_limit_spec.2.2.2.1 "5" 5 (by decide) (by decide) (by decide), ?_⟩
  refine ⟨_, rfl, ?_⟩
  exact c5_board_limit_spec.2.2.2.2.1 _ "T1" "C1" 5 _ _ (by decide) rfl

/-- C1: the spot-logging decision table, in both variants.  For a message in
the active channel: with a mention and at least one attached image, exactly
one new Spot is appended, confirmed, with channel, spotter, target and image
reference (`files[0].url_private`) verbatim from the message, and the success
reply is sent; with a mention but no image, the no-photo reply is sent and
the store is unchanged; without a mention nothing happens regardless of
image presence. -/
theorem c1_spot_logging_table :
    (∀ (db : List MT.Installation) (spots : List MT.Spot) (now : Nat) (m : Message),
      MT.isActiveChannel db m.team m.channel = true →
      (∀ t f fs, findMention m.text.toList = some t → m.files = f :: fs →
        MT.spotHandler db spots now m =
          (spots ++ [{ teamId := m.team, spotterId := m.user, targetId := t,
                       imageUrl := f.url_private, channelId := m.channel,
                       messageTs := some m.ts, status := "confirmed",
                       timestamp := now }],
           some (Reply.plain (MT.spotLoggedText m.user t)))) ∧
      (∀ t, findMention m.text.toList = some t → m.files = [] →
        MT.spotHandler db spots now m =
          (spots, some (Reply.plain (MT.noPhotoText m.user)))) ∧
      (findMention m.text.toList = none →
        MT.spotHandler db spots now m = (spots, none))) ∧
    (∀ (spots : List ST.Spot) (now : Nat) (m : Message),
      m.channel = ST.activeChannelConst →
      (∀ t f fs, findMention m.text.toList = some t → m.files = f :: fs →
        ST.spotHandler spots now m =
          (spots ++ [{ spotterId := m.user, targetId := t,
                       imageUrl := f.url_private, channelId := m.channel,
                       messageTs := some m.ts, status := "confirmed",
                       timestamp := now }],
           some (Reply.plain (MT.spotLoggedText m.user t)))) ∧
      (∀ t, findMention m.text.toList = some t → m.files = [] →
        ST.spotHandler spots now m =
          (spots, some (Reply.plain (MT.noPhotoText m.user)))) ∧
      (findMention m.text.toList = none →
        ST.spotHandler spots now m = (spots, none))) := by
  constructor
  · intro db spots now m hgate
    refine ⟨?_, ?_, ?_⟩
    · intro t f fs hm hf
      have hm' : findMention m.text.data = some t := hm
      simp [MT.spotHandler, hgate, hm', hf]
    · intro t hm hf
      have hm' : findMention m.text.data = some t := hm
      simp [MT.spotHandler, hgate, hm', hf]
    · intro hm
      have hm' : findMention m.text.data = none := hm
      cases hfiles : m.files <;> simp [MT.spotHandler, hgate, hm', hfiles]
  · intro spots now m hgate
    refine ⟨?_, ?_, ?_⟩
    · intro t f fs hm hf
      have hm' : findMention m.text.data = some t := hm
      simp [ST.spotHandler, hgate, hm', hf]
    · intro t hm hf
      have hm' : findMention m.text.data = some t := hm
      simp [ST.spotHandler, hgate, hm', hf]
    · intro hm
      have hm' : findMention m.text.data = none := hm
      cases hfiles : m.files <;> simp [ST.spotHandler, hgate, hm', hfiles]

/-- Witness for C1: the three rows of the decision table at concrete
messages in the bound channel (multi-tenant) and in the hard-coded channel
(single-tenant). -/
theorem c1_witness :
    MT.spotHandler db1 [] 5 msgSpot
      = ([spot1], some (Reply.plain (MT.spotLoggedText "U1" "U2"))) ∧
    MT.spotHandler db1 [] 5 { msgSpot with files := [] }
      = ([], some (Reply.plain (MT.noPhotoText "U1"))) ∧
    MT.spotHandler db1 [] 5 { msgSpot with text := "spotted nothing" }
      = ([], none) ∧
    ST.spotHandler [] 7
        { team := "", channel := ST.activeChannelConst, user := "U1",
          text := "spot <@U2>", files := [{ url_private := "p" }], ts := "9.9" }
      = ([{ spotterId := "U1", targetId := "U2", imageUrl := "p",
            channelId := ST.activeChannelConst, messageTs := some "9.9",
            timestamp := 7 }],
         some (Reply.plain (MT.spotLoggedText "U1" "U2"))) := by
  refine ⟨?_, ?_, ?_, ?_⟩
  · exact (c1_spot_logging_table.1 db1 [] 5 msgSpot (by decide)).1 "U2"
      { url_private := "https://f/1" } [] (by decide) rfl
  · exact (c1_spot_logging_table.1 db1 [] 5 _ (by decide)).2.1 "U2" (by decide) rfl
  · exact (c1_spot_logging_table.1 db1 [] 5 _ (by decide)).2.2 (by decide)
  · exact (c1_spot_logging_table.2 [] 7 _ (by decide)).1 "U2"
      { url_private := "p" } [] (by decide) rfl

/-- A threaded admin "veto" reply to the message that logged `spot1`. -/
def msgVeto : Message :=
  { team := "T1", channel := "C1", user := "UA", text := "veto",
    files := [], ts := "200.5", thread_ts := some "100.1" }

/-- C2: in both variants a veto mutates the store only for a genuinely
threaded reply (thread-root timestamp present and different from the
message's own) with a passing admin lookup; a non-threaded veto is silently
ignored; on authorization it deletes exactly the first Spot whose `messageTs`
equals the thread root in the matching channel (and team, multi-tenant),
replying in the thread with the confirmation, or with the no-spot-found
reply when nothing matches. -/
theorem c2_veto_spec :
    (∀ (db : List MT.Installation) (spots : List MT.Spot)
        (admin : Except Unit Bool) (m : Message),
      ((MT.vetoHandler db spots admin m).1 ≠ spots →
        ∃ tts, m.thread_ts = some tts ∧ tts ≠ m.ts ∧ admin = Except.ok true) ∧
      (MT.isActiveChannel db m.team m.channel = true →
        (m.thread_ts = none → MT.vetoHandler db spots admin m = (spots, none)) ∧
        (∀ tts, m.thread_ts = some tts → tts = m.ts →
          MT.vetoHandler db spots admin m = (spots, none)) ∧
        (∀ tts, m.thread_ts = some tts → tts ≠ m.ts →
          ((∀ x ∈ spots, MT.vetoFilter m.team tts m.channel x = false) →
            MT.vetoHandler db spots (Except.ok true) m =
              (spots, some { text := MT.noSpotFoundText, thread := some tts })) ∧
          (∀ pre d post, spots = pre ++ d :: post →
            MT.vetoFilter m.team tts m.channel d = true →
            (∀ x ∈ pre, MT.vetoFilter m.team tts m.channel x = false) →
            MT.vetoHandler db spots (Except.ok true) m =
              (pre ++ post,
               some { text := MT.vetoedText m.user d, thread := some tts }))))) ∧
    (∀ (spots : List ST.Spot) (admin : Except Unit Bool) (m : Message),
      ((ST.vetoHandler spots admin m).1 ≠ spots →
        ∃ tts, m.thread_ts = some tts ∧ tts ≠ m.ts ∧ admin = Except.ok true) ∧
      (m.thread_ts = none → ST.vetoHandler spots admin m = (spots, none)) ∧
      (∀ tts, m.thread_ts = some tts → tts = m.ts →
        ST.vetoHandler spots admin m = (spots, none)) ∧
      (∀ tts, m.thread_ts = some tts → tts ≠ m.ts →
        ((∀ x ∈ spots, ST.vetoFilter tts m.channel x = false) →
          ST.vetoHandler spots (Except.ok true) m =
            (spots, some { text := MT.noSpotFoundText, thread := some tts })) ∧
        (∀ pre d post, spots = pre ++ d :: post →
          ST.vetoFilter tts m.channel d = true →
          (∀ x ∈ pre, ST.vetoFilter tts m.channel x = false) →
          ST.vetoHandler spots (Except.ok true) m =
            (pre ++ post,
             some { text := ST.vetoedText m.user d, thread := some tts })))) := by
  constructor
  · intro db spots admin m
    constructor
    · intro h
      by_cases hg : MT.isActiveChannel db m.team m.channel = true
      · cases hts : m.thread_ts with
        | none => exact absurd (by simp [MT.vetoHandler, hg, hts]) h
        | some tts =>
            by_cases he : tts = m.ts
            · exact absurd (by simp [MT.vetoHandler, hg, hts, he]) h
            · cases admin with
              | error e => exact absurd (by simp [MT.vetoHandler, hg, hts, he]) h
              | ok b =>
                  cases b with
                  | false => exact absurd (by simp [MT.vetoHandler, hg, hts, he]) h
                  | true => exact ⟨tts, rfl, he, rfl⟩
      · exact absurd (by simp [MT.vetoHandler, Bool.not_eq_true _ |>.mp hg]) h
    · intro hg
      refine ⟨?_, ?_, ?_⟩
      · intro hts
        simp [MT.vetoHandler, hg, hts]
      · intro tts hts he
        simp [MT.vetoHandler, hg, hts, he]
      · intro tts hts he
        constructor
        · intro hnone
          have hfd := findOneAndDelete_of_all_false
            (MT.vetoFilter m.team tts m.channel) spots hnone
          simp [MT.vetoHandler, hg, hts, he, hfd]
        · intro pre d post hsplit hd hpre
          have hfd := findOneAndDelete_first
            (MT.vetoFilter m.team tts m.channel) d post pre hd hpre
          rw [hsplit]
          simp [MT.vetoHandler, hg, hts, he, hfd]
  · intro spots admin m
    refine ⟨?_, ?_, ?_, ?_⟩
    · intro h
      cases hts : m.thread_ts with
      | none => exact absurd (by simp [ST.vetoHandler, hts]) h
      | some tts =>
          by_cases he : tts = m.ts
          · exact absurd (by simp [ST.vetoHandler, hts, he]) h
          · cases admin with
            | error e => exact absurd (by simp [ST.vetoHandler, hts, he]) h
            | ok b =>
                cases b with
                | false => exact absurd (by simp [ST.vetoHandler, hts, he]) h
                | true => exact ⟨tts, rfl, he, rfl⟩
    · intro hts
      simp [ST.vetoHandler, hts]
    · intro tts hts he
      simp [ST.vetoHandler, hts, he]
    · intro tts hts he
      constructor
      · intro hnone
        have hfd := findOneAndDelete_of_all_false
          (ST.vetoFilter tts m.channel) spots hnone
        simp [ST.vetoHandler, hts, he, hfd]
      · intro pre d post hsplit hd hpre
        have hfd := findOneAndDelete_first
          (ST.vetoFilter tts m.channel) d post pre hd hpre
        rw [hsplit]
        simp [ST.vetoHandler, hts, he, hfd]

/-- Witness for C2: an admin threaded veto on the message that logged `spot1`
deletes it and confirms in the thread; on an empty store it replies
no-spot-found; a veto whose thread root equals its own timestamp is silently
ignored; the single-tenant veto deletes `stSpot1` by its `messageTs`. -/
theorem c2_witness :
    MT.vetoHandler db1 [spot1] (Except.ok true) msgVeto
      = ([], some { text := MT.vetoedText "UA" spot1, thread := some "100.1" }) ∧
    MT.vetoHandler db1 [] (Except.ok true) msgVeto
      = ([], some { text := MT.noSpotFoundText, thread := some "100.1" }) ∧
    MT.vetoHandler db1 [spot1] (Except.ok true)
        { msgVeto with thread_ts := some "200.5" } = ([spot1], none) ∧
    ST.vetoHandler [stSpot1] (Except.ok true)
        { team := "", channel := "CX", user := "UA", text := "veto",
          files := [], ts := "9.9", thread_ts := some "1.0" }
      = ([], some { text := ST.vetoedText "UA" stSpot1, thread := some "1.0" }) := by
  refine ⟨?_, ?_, ?_, ?_⟩
  · exact ((((c2_veto_spec.1 db1 [spot1] (Except.ok true) msgVeto).2
      (by decide)).2.2 "100.1" rfl (by decide)).2 [] spot1 [] rfl (by decide)
      (by simp))
  · exact ((((c2_veto_spec.1 db1 [] (Except.ok true) msgVeto).2
      (by decide)).2.2 "100.1" rfl (by decide)).1 (by simp))
  · exact (((c2_veto_spec.1 db1 [spot1] (Except.ok true) _).2
      (by decide)).2.1 "200.5" rfl rfl)
  · exact (((c2_veto_spec.2 [stSpot1] (Except.ok true) _).2.2.2 "1.0" rfl
      (by decide)).2 [] stSpot1 [] rfl (by decide) (by simp))

/-- C3 counterexample: in the single-tenant variant `/reset` performs no
channel gate.  Invoked by an admin in channel CX — which is not the
hard-coded active channel — it still wipes CX's Spot, so a gated handler
writes the Record Store although the gate would have failed. -/
theorem c3_counterexample :
    ("CX" : String) ≠ ST.activeChannelConst ∧
    (ST.resetHandler [stSpot1] (Except.ok true)
        { team_id := "T", channel_id := "CX", user_id := "UA", text := "" }).1 = [] ∧
    ([stSpot1] : List ST.Spot) ≠ [] := by
  refine ⟨by decide, by decide, by decide⟩

/-- C3 (amended): in the multi-tenant variant every message- and
command-triggered handler except `/setchannel` performs the channel gate
first — a failing gate silently no-ops the message handlers and makes the
command handlers reply with the not-active notice, leaving the Spot store
untouched — and a tenant with no bound active channel fails the gate for
every channel.  In the single-tenant variant only the spot and pics message
listeners gate (on the hard-coded channel); `/spotboard`, `/caughtboard`,
`/reset` and veto run ungated, e.g. an admin `/reset` wipes the invoking
channel whatever channel that is. -/
theorem c3_gate_spec :
    (∀ (db : List MT.Installation) (spots : List MT.Spot) (now : Nat) (m : Message),
      MT.isActiveChannel db m.team m.channel = false →
      MT.spotHandler db spots now m = (spots, none)) ∧
    (∀ (db : List MT.Installation) (spots : List MT.Spot) (m : Message),
      MT.isActiveChannel db m.team m.channel = false →
      MT.picsHandler db spots m = none) ∧
    (∀ (db : List MT.Installation) (spots : List MT.Spot)
        (admin : Except Unit Bool) (m : Message),
      MT.isActiveChannel db m.team m.channel = false →
      MT.vetoHandler db spots admin m = (spots, none)) ∧
    (∀ (db : List MT.Installation) (spots : List MT.Spot) (c : Command),
      MT.isActiveChannel db c.team_id c.channel_id = false →
      MT.spotboardHandler db spots c = Reply.plain MT.notActiveText) ∧
    (∀ (db : List MT.Installation) (spots : List MT.Spot) (c : Command),
      MT.isActiveChannel db c.team_id c.channel_id = false →
      MT.caughtboardHandler db spots c = Reply.plain MT.notActiveText) ∧
    (∀ (db : List MT.Installation) (spots : List MT.Spot)
        (admin : Except Unit Bool) (c : Command),
      MT.isActiveChannel db c.team_id c.channel_id = false →
      MT.resetHandler db spots admin c = (spots, Reply.plain MT.notActiveText)) ∧
    (∀ (db : List MT.Installation) (teamId channelId : String),
      MT.getActiveChannel db teamId = none →
      MT.isActiveChannel db teamId channelId = false) ∧
    (∀ (spots : List ST.Spot) (now : Nat) (m : Message),
      m.channel ≠ ST.activeChannelConst →
      ST.spotHandler spots now m = (spots, none)) ∧
    (∀ (spots : List ST.Spot) (m : Message),
      m.channel ≠ ST.activeChannelConst →
      ST.picsHandler spots m = none) ∧
    (∀ (spots : List ST.Spot) (c : Command),
      (ST.resetHandler spots (Except.ok true) c).1
        = spots.filter (fun s => !ST.resetFilter c.channel_id s)) := by
  refine ⟨?_, ?_, ?_, ?_, ?_, ?_, ?_, ?_, ?_, ?_⟩
  · intro db spots now m h
    simp [MT.spotHandler, h]
  · intro db spots m h
    simp [MT.picsHandler, h]
  · intro db spots admin m h
    simp [MT.vetoHandler, h]
  · intro db spots c h
    simp [MT.spotboardHandler, h]
  · intro db spots c h
    simp [MT.caughtboardHandler, h]
  · intro db spots admin c h
    simp [MT.resetHandler, h]
  · intro db teamId channelId h
    simp [MT.isActiveChannel, h]
  · intro spots now m h
    simp [ST.spotHandler, h]
  · intro spots m h
    simp [ST.picsHandler, h]
  · intro spots c
    by_cases h : (spots.filter (ST.resetFilter c.channel_id)).length > 0 <;>
      simp [ST.resetHandler, deleteMany, h]

/-- Witness for C3 (amended): with no Installation bound, every multi-tenant
handler no-ops or replies not-active on a concrete message and command, and
the single-tenant message listeners no-op outside the hard-coded channel. -/
theorem c3_witness :
    MT.spotHandler [] [] 5 msgSpot = ([], none) ∧
    MT.picsHandler [] [] msgSpot = none ∧
    MT.vetoHandler [] [] (Except.ok true) msgVeto = ([], none) ∧
    MT.spotboardHandler [] []
        { team_id := "T1", channel_id := "C1", user_id := "U1", text := "" }
      = Reply.plain MT.notActiveText ∧
    MT.caughtboardHandler [] []
        { team_id := "T1", channel_id := "C1", user_id := "U1", text := "" }
      = Reply.plain MT.notActiveText ∧
    MT.resetHandler [] [] (Except.ok true)
        { team_id := "T1", channel_id := "C1", user_id := "U1", text := "" }
      = ([], Reply.plain MT.notActiveText) ∧
    MT.isActiveChannel [] "T1" "C1" = false ∧
    ST.spotHandler [] 5 { msgSpot with channel := "CX" } = ([], none) ∧
    ST.picsHandler [] { msgSpot with channel := "CX" } = none ∧
    (ST.resetHandler [stSpot1] (Except.ok true)
        { team_id := "T", channel_id := "CZ", user_id := "UA", text := "" }).1
      = [stSpot1].filter (fun s => !ST.resetFilter "CZ" s) :=
  ⟨c3_gate_spec.1 [] [] 5 msgSpot (by decide),
   c3_gate_spec.2.1 [] [] msgSpot (by decide),
   c3_gate_spec.2.2.1 [] [] (Except.ok true) msgVeto (by decide),
   c3_gate_spec.2.2.2.1 [] [] _ (by decide),
   c3_gate_spec.2.2.2.2.1 [] [] _ (by decide),
   c3_gate_spec.2.2.2.2.2.1 [] [] (Except.ok true) _ (by decide),
   c3_gate_spec.2.2.2.2.2.2.1 [] "T1" "C1" (by decide),
   c3_gate_spec.2.2.2.2.2.2.2.1 [] 5 _ (by decide),
   c3_gate_spec.2.2.2.2.2.2.2.2.1 [] _ (by decide),
   c3_gate_spec.2.2.2.2.2.2.2.2.2 [stSpot1] _⟩

/-- A second multi-tenant Spot in a different channel (C9). -/
def spot2 : MT.Spot :=
  { teamId := "T1", spotterId := "U3", targetId := "U4", imageUrl := "u2",
    channelId := "C9", messageTs := some "50.0", timestamp := 3 }

/-- An admin `/reset` invocation in the bound channel C1. -/
def cmdReset : Command :=
  { team_id := "T1", channel_id := "C1", user_id := "UA", text := "" }

/-- C6: an authorized `/reset` deletes all and only the Spots of the invoking
channel (and tenant, multi-tenant): the surviving store is exactly the
non-matching Spots, the reported `deletedCount` equals the number of rows
actually removed (`spots.length = n + survivors.length`), the reply is the
wipe report when `n > 0` and "already clean" otherwise, and an immediate
second `/reset` removes zero Spots and replies "already clean". -/
theorem c6_reset_spec :
    (∀ (db : List MT.Installation) (spots : List MT.Spot) (c : Command) (n : Nat),
      MT.isActiveChannel db c.team_id c.channel_id = true →
      n = (spots.filter (MT.resetFilter c.team_id c.channel_id)).length →
      (MT.resetHandler db spots (Except.ok true) c).1
        = spots.filter (fun s => !MT.resetFilter c.team_id c.channel_id s) ∧
      spots.length = n + (MT.resetHandler db spots (Except.ok true) c).1.length ∧
      (MT.resetHandler db spots (Except.ok true) c).2
        = (if 0 < n then Reply.plain (MT.kaboomText c.user_id n)
           else Reply.plain MT.alreadyCleanText) ∧
      MT.resetHandler db (MT.resetHandler db spots (Except.ok true) c).1
          (Except.ok true) c
        = ((MT.resetHandler db spots (Except.ok true) c).1,
           Reply.plain MT.alreadyCleanText)) ∧
    (∀ (spots : List ST.Spot) (c : Command) (n : Nat),
      n = (spots.filter (ST.resetFilter c.channel_id)).length →
      (ST.resetHandler spots (Except.ok true) c).1
        = spots.filter (fun s => !ST.resetFilter c.channel_id s) ∧
      spots.length = n + (ST.resetHandler spots (Except.ok true) c).1.length ∧
      (ST.resetHandler spots (Except.ok true) c).2
        = (if 0 < n then Reply.plain (ST.kaboomText c.user_id n)
           else Reply.plain MT.alreadyCleanText) ∧
      ST.resetHandler (ST.resetHandler spots (Except.ok true) c).1
          (Except.ok true) c
        = ((ST.resetHandler spots (Except.ok true) c).1,
           Reply.plain MT.alreadyCleanText)) := by
  constructor
  · intro db spots c n hg hn
    have hres : MT.resetHandler db spots (Except.ok true) c
        = (spots.filter (fun s => !MT.resetFilter c.team_id c.channel_id s),
           if 0 < n then Reply.plain (MT.kaboomText c.user_id n)
           else Reply.plain MT.alreadyCleanText) := by
      subst hn
      by_cases h : 0 < (spots.filter (MT.resetFilter c.team_id c.channel_id)).length <;>
        simp [MT.resetHandler, hg, deleteMany, h]
    refine ⟨by rw [hres], ?_, by rw [hres], ?_⟩
    · rw [hres, hn]
      exact length_filter_split (MT.resetFilter c.team_id c.channel_id) spots
    · rw [hres]
      simp [MT.resetHandler, hg, deleteMany, filter_not_filter, filter_not_idem]
  · intro spots c n hn
    have hres : ST.resetHandler spots (Except.ok true) c
        = (spots.filter (fun s => !ST.resetFilter c.channel_id s),
           if 0 < n then Reply.plain (ST.kaboomText c.user_id n)
           else Reply.plain MT.alreadyCleanText) := by
      subst hn
      by_cases h : 0 < (spots.filter (ST.resetFilter c.channel_id)).length <;>
        simp [ST.resetHandler, deleteMany, h]
    refine ⟨by rw [hres], ?_, by rw [hres], ?_⟩
    · rw [hres, hn]
      exact length_filter_split (ST.resetFilter c.channel_id) spots
    · rw [hres]
      simp [ST.resetHandler, deleteMany, filter_not_filter, filter_not_idem]

/-- Witness for C6: resetting C1 with Spots in C1 and C9 removes only the C1
Spot and reports 1 deleted; resetting again removes nothing and replies
"already clean"; likewise for the single-tenant variant. -/
theorem c6_witness :
    (MT.resetHandler db1 [spot1, spot2] (Except.ok true) cmdReset).1 = [spot2] ∧
    (MT.resetHandler db1 [spot1, spot2] (Except.ok true) cmdReset).2
      = Reply.plain (MT.kaboomText "UA" 1) ∧
    MT.resetHandler db1 [spot2] (Except.ok true) cmdReset
      = ([spot2], Reply.plain MT.alreadyCleanText) ∧
    (ST.resetHandler [stSpot1] (Except.ok true)
        { team_id := "T", channel_id := "CX", user_id := "UA", text := "" }).2
      = Reply.plain (ST.kaboomText "UA" 1) := by
  have h := c6_reset_spec.1 db1 [spot1, spot2] cmdReset 1 (by decide) (by decide)
  have hs := c6_reset_spec.2 [stSpot1]
    { team_id := "T", channel_id := "CX", user_id := "UA", text := "" } 1 (by decide)
  exact ⟨h.1, h.2.2.1, h.2.2.2, hs.2.2.1⟩

/-- C7: for every handler performing the admin Authorization Check
(`/setchannel`, `/reset`, veto — in both variants), a failing remote identity
lookup never reaches the store: the handler replies with its generic error
message and the Spot / Installation collections are returned unchanged. -/
theorem c7_admin_lookup_failure :
    (∀ (db : List MT.Installation) (c : Command),
      MT.setchannelHandler db (Except.error ()) c
        = (db, Reply.plain MT.setchannelErrText)) ∧
    (∀ (db : List MT.Installation) (spots : List MT.Spot) (c : Command),
      MT.isActiveChannel db c.team_id c.channel_id = true →
      MT.resetHandler db spots (Except.error ()) c
        = (spots, Reply.plain MT.resetErrText)) ∧
    (∀ (db : List MT.Installation) (spots : List MT.Spot) (m : Message) (tts : String),
      MT.isActiveChannel db m.team m.channel = true →
      m.thread_ts = some tts → tts ≠ m.ts →
      MT.vetoHandler db spots (Except.error ()) m
        = (spots, some { text := MT.vetoErrText, thread := some tts })) ∧
    (∀ (spots : List ST.Spot) (c : Command),
      ST.resetHandler spots (Except.error ()) c
        = (spots, Reply.plain MT.resetErrText)) ∧
    (∀ (spots : List ST.Spot) (m : Message) (tts : String),
      m.thread_ts = some tts → tts ≠ m.ts →
      ST.vetoHandler spots (Except.error ()) m
        = (spots, some { text := MT.vetoErrText, thread := some tts })) := by
  refine ⟨?_, ?_, ?_, ?_, ?_⟩
  · intro db c
    rfl
  · intro db spots c hg
    simp [MT.resetHandler, hg]
  · intro db spots m tts hg hts he
    simp [MT.vetoHandler, hg, hts, he]
  · intro spots c
    rfl
  · intro spots m tts hts he
    simp [ST.vetoHandler, hts, he]

/-- Witness for C7: concrete failing lookups for all five handlers leave the
stores untouched and produce the generic error replies. -/
theorem c7_witness :
    MT.setchannelHandler db1 (Except.error ()) cmdReset
      = (db1, Reply.plain MT.setchannelErrText) ∧
    MT.resetHandler db1 [spot1] (Except.error ()) cmdReset
      = ([spot1], Reply.plain MT.resetErrText) ∧
    MT.vetoHandler db1 [spot1] (Except.error ()) msgVeto
      = ([spot1], some { text := MT.vetoErrText, thread := some "100.1" }) ∧
    ST.resetHandler [stSpot1] (Except.error ())
        { team_id := "T", channel_id := "CX", user_id := "UA", text := "" }
      = ([stSpot1], Reply.plain MT.resetErrText) ∧
    ST.vetoHandler [stSpot1] (Except.error ())
        { team := "", channel := "CX", user := "UA", text := "veto",
          files := [], ts := "9.9", thread_ts := some "1.0" }
      = ([stSpot1], some { text := MT.vetoErrText, thread := some "1.0" }) :=
  ⟨c7_admin_lookup_failure.1 db1 cmdReset,
   c7_admin_lookup_failure.2.1 db1 [spot1] cmdReset (by decide),
   c7_admin_lookup_failure.2.2.1 db1 [spot1] msgVeto "100.1" (by decide) rfl
     (by decide),
   c7_admin_lookup_failure.2.2.2.1 [stSpot1] _,
   c7_admin_lookup_failure.2.2.2.2 [stSpot1] _ "1.0" rfl (by decide)⟩

/-- C8: for a "pics" message in the active channel (both variants): without a
mention the handler replies with the usage prompt; with a mention the fetched
list holds at most 10 Spots, each confirmed with the mentioned target in that
channel (and tenant), ordered newest first; when it is empty the handler
replies with the "clean" message, otherwise it renders the gallery whose
blocks are a header, a divider, and exactly one section block per Spot.  The
handler returns only a reply — it never writes the Record Store. -/
theorem c8_pics_spec :
    (∀ (db : List MT.Installation) (spots : List MT.Spot) (m : Message),
      MT.isActiveChannel db m.team m.channel = true →
      (findMention m.text.toList = none →
        MT.picsHandler db spots m = some (Reply.plain MT.picsUsageText)) ∧
      (∀ t, findMention m.text.toList = some t →
        (MT.picsSpots m.team t m.channel spots).length ≤ 10 ∧
        (∀ s ∈ MT.picsSpots m.team t m.channel spots,
          MT.picsFilter m.team t m.channel s = true) ∧
        List.Pairwise (fun a b => b.timestamp ≤ a.timestamp)
          (MT.picsSpots m.team t m.channel spots) ∧
        (MT.picsSpots m.team t m.channel spots = [] →
          MT.picsHandler db spots m = some (Reply.plain (MT.cleanText t))) ∧
        (MT.picsSpots m.team t m.channel spots ≠ [] →
          MT.picsHandler db spots m = some
            { text := "Gallery for <@" ++ t ++ ">"
              blocks := galleryBlocks t ((MT.picsSpots m.team t m.channel spots).map
                (fun s => (s.timestamp, s.spotterId, s.imageUrl))) }))) ∧
    (∀ (spots : List ST.Spot) (m : Message),
      m.channel = ST.activeChannelConst →
      (findMention m.text.toList = none →
        ST.picsHandler spots m = some (Reply.plain MT.picsUsageText)) ∧
      (∀ t, findMention m.text.toList = some t →
        (ST.picsSpots t m.channel spots).length ≤ 10 ∧
        (∀ s ∈ ST.picsSpots t m.channel spots,
          ST.picsFilter t m.channel s = true) ∧
        List.Pairwise (fun a b => b.timestamp ≤ a.timestamp)
          (ST.picsSpots t m.channel spots) ∧
        (ST.picsSpots t m.channel spots = [] →
          ST.picsHandler spots m = some (Reply.plain (MT.cleanText t))) ∧
        (ST.picsSpots t m.channel spots ≠ [] →
          ST.picsHandler spots m = some
            { text := "Gallery for <@" ++ t ++ ">"
              blocks := galleryBlocks t ((ST.picsSpots t m.channel spots).map
                (fun s => (s.timestamp, s.spotterId, s.imageUrl))) }))) ∧
    (∀ (t : String) (entries : List (Nat × String × String)),
      (galleryBlocks t entries).length = entries.length + 2) := by
  refine ⟨?_, ?_, ?_⟩
  · intro db spots m hg
    constructor
    · intro hm
      have hm' : findMention m.text.data = none := hm
      simp [MT.picsHandler, hg, hm']
    · intro t hm
      have hm' : findMention m.text.data = some t := hm
      refine ⟨?_, ?_, ?_, ?_, ?_⟩
      · exact List.length_take_le 10 _
      · intro s hs
        simp only [MT.picsSpots] at hs
        have hs' := (mem_sortDescBy (fun s : MT.Spot => s.timestamp) s _).mp
          (List.take_subset 10 _ hs)
        exact (List.mem_filter.mp hs').2
      · simp only [MT.picsSpots]
        exact List.Pairwise.sublist (List.take_sublist 10 _)
          (pairwise_sortDescBy (fun s : MT.Spot => s.timestamp) _)
      · intro hemp
        simp [MT.picsHandler, hg, hm', MT.picsSpots] at hemp ⊢
        simp [hemp]
      · intro hne
        have hfe : (MT.picsSpots m.team t m.channel spots).isEmpty = false := by
          cases hfound : MT.picsSpots m.team t m.channel spots with
          | nil => exact absurd hfound hne
          | cons a rest => rfl
        simp [MT.picsHandler, hg, hm', MT.picsSpots] at hfe ⊢
        simp [hfe, MT.picsSpots]
  · intro spots m hg
    constructor
    · intro hm
      have hm' : findMention m.text.data = none := hm
      simp [ST.picsHandler, hg, hm']
    · intro t hm
      have hm' : findMention m.text.data = some t := hm
      refine ⟨?_, ?_, ?_, ?_, ?_⟩
      · exact List.length_take_le 10 _
      · intro s hs
        simp only [ST.picsSpots] at hs
        have hs' := (mem_sortDescBy (fun s : ST.Spot => s.timestamp) s _).mp
          (List.take_subset 10 _ hs)
        exact (List.mem_filter.mp hs').2
      · simp only [ST.picsSpots]
        exact List.Pairwise.sublist (List.take_sublist 10 _)
          (pairwise_sortDescBy (fun s : ST.Spot => s.timestamp) _)
      · intro hemp
        simp [ST.picsHandler, hg, hm', ST.picsSpots] at hemp ⊢
        simp [hemp]
      · intro hne
        have hfe : (ST.picsSpots t m.channel spots).isEmpty = false := by
          cases hfound : ST.picsSpots t m.channel spots with
          | nil => exact absurd hfound hne
          | cons a rest => rfl
        simp [ST.picsHandler, hg, hm', ST.picsSpots] at hfe ⊢
        simp [hfe, ST.picsSpots]
  · intro t entries
    simp [galleryBlocks]

/-- Witness for C8: "pics" without a mention prompts for usage; "pics <@U2>"
over an empty store replies that U2 is clean; over a store holding `spot1` it
renders the gallery with exactly one section block for the spot (3 blocks in
total: header, divider, one per spot). -/
theorem c8_witness :
    MT.picsHandler db1 []
        { team := "T1", channel := "C1", user := "U5", text := "pics",
          files := [], ts := "300.0" }
      = some (Reply.plain MT.picsUsageText) ∧
    MT.picsHandler db1 []
        { team := "T1", channel := "C1", user := "U5", text := "pics <@U2>",
          files := [], ts := "300.0" }
      = some (Reply.plain (MT.cleanText "U2")) ∧
    MT.picsHandler db1 [spot1]
        { team := "T1", channel := "C1", user := "U5", text := "pics <@U2>",
          files := [], ts := "300.0" }
      = some
          { text := "Gallery for <@U2>"
            blocks := galleryBlocks "U2" [(5, "U1", "https://f/1")] } ∧
    (galleryBlocks "U2" [(5, "U1", "https://f/1")]).length = 1 + 2 := by
  refine ⟨?_, ?_, ?_, ?_⟩
  · exact (c8_pics_spec.1 db1 [] _ (by decide)).1 (by decide)
  · exact ((c8_pics_spec.1 db1 [] _ (by decide)).2 "U2" (by decide)).2.2.2.1
      (by decide)
  · exact ((c8_pics_spec.1 db1 [spot1] _ (by decide)).2 "U2" (by decide)).2.2.2.2
      (by decide)
  · exact c8_pics_spec.2.2 "U2" [(5, "U1", "https://f/1")]

end SpotBot
